import Mathlib

/-!
# Verification of the Parquet consolidation workflow

Shallow embedding of `src/python/parquet_consolidator.py`,
`src/python/consolidate_remote.py` and `src/python/demo_consolidation.py`.

The remote filesystem (HDFS) is modelled by an explicit partition listing
(`List RFile`) together with an oracle (`Env`) that decides the outcome of
each fallible remote call (list/get/put/delete) and of the local merge
(schema compatibility, re-read row count).  Every remote `put` or `delete`
*attempt* made by the workflow is recorded in a trace (`List RemoteOp`),
mirroring the subprocess invocations in the source.  Control flow follows
the Python line by line: every early `return` of `consolidate_date`
corresponds to one exit record below.
-/

/-- Number of parallel downloads (`PARALLEL_DOWNLOADS = 8`, line 34). -/
def PARALLEL_DOWNLOADS : Nat := 8

/-- Cleanup threshold: files at most this size are considered corrupted
(`CLEANUP_THRESHOLD_BYTES = 1024`, line 37). -/
def CLEANUP_THRESHOLD_BYTES : Nat := 1024

/-- Minimum number of files before consolidation runs
(`MIN_FILES_TO_CONSOLIDATE = 5`, lines 80/90). -/
def MIN_FILES_TO_CONSOLIDATE : Nat := 5

/-- Planning exclusion threshold: files strictly smaller are skipped by
`get_file_info` (`MIN_FILE_SIZE_BYTES = 1024`, lines 81/91). -/
def MIN_FILE_SIZE_BYTES : Nat := 1024

/-- Local staging root (`TEMP_LOCAL_DIR`, line 82). -/
def TEMP_LOCAL_DIR : String := "/tmp/parquet_consolidation"

/-- Remote base path (`BASE_PATH`, line 78). -/
def BASE_PATH : String := "/insurance-megacorp/telemetry-data-v2"

/-- Does the character list `pat` occur at the head of `l`? -/
def startsWithChars : List Char → List Char → Bool
  | [], _ => true
  | _ :: _, [] => false
  | a :: as, b :: bs => a = b && startsWithChars as bs

/-- Does the character list `pat` occur anywhere inside `l`? -/
def containsChars (pat : List Char) : List Char → Bool
  | [] => startsWithChars pat []
  | b :: bs => startsWithChars pat (b :: bs) || containsChars pat bs

/-- Python's `pat in s` substring test, as used on `hdfs dfs -ls` lines. -/
def strContains (s pat : String) : Bool := containsChars pat.toList s.toList

/-- The filename filter `'telemetry-' in line and '.parquet' in line`
used by `cleanup_corrupted_files` (line 141) and `get_daily_files` (line 194). -/
def isTelemetryParquetLine (p : String) : Bool :=
  strContains p "telemetry-" && strContains p ".parquet"

/-- Characters of the component after the last `/`: the accumulator is
reset at every separator and holds the current component reversed. -/
def basenameAux : List Char → List Char → List Char
  | acc, [] => acc.reverse
  | acc, c :: cs => if c = '/' then basenameAux [] cs else basenameAux (c :: acc) cs

/-- `os.path.basename`: the component after the last `/`. -/
def basename (s : String) : String := String.mk (basenameAux [] s.toList)

/-- One file of the remote date partition: its full path, its size in bytes
as reported by `hdfs dfs -ls`, and the number of rows its Parquet content
holds (observed by `pq.read_table` after download). -/
structure RFile where
  path : String
  size : Nat
  rows : Nat
deriving DecidableEq

/-- A remote mutation attempt issued by the workflow: an `hdfs dfs -put`
(line 428 / `hdfs.put` line 413) or an `hdfs dfs -rm`
(lines 153 and 461 / `hdfs.rm` line 451). -/
inductive RemoteOp where
  | put (remotePath : String)
  | delete (path : String)
deriving DecidableEq

/-- Is this trace entry a `put`? -/
def RemoteOp.isPut : RemoteOp → Bool
  | .put _ => true
  | .delete _ => false

/-- Number of `put` attempts in a trace. -/
def putCount (ops : List RemoteOp) : Nat := (ops.filter RemoteOp.isPut).length

/-- Oracle for the fallible calls of one date's run: whether the directory
listing subprocess succeeds, whether each `get`/`delete` succeeds, whether
the single `put` succeeds, whether reading and concatenating the staged
tables succeeds (schema compatibility, `pa.concat_tables`), and the row
count observed when re-reading a freshly written output of `n` rows
(`pq.read_table(output_file)`, line 397; an honest filesystem gives `n`). -/
structure Env where
  listOk : Bool
  getOk : String → Bool
  deleteOk : String → Bool
  putOk : Bool
  schemaOk : Bool
  rereadRows : Nat → Nat

/-- One iteration of the deletion loop of `cleanup_corrupted_files`
(lines 140-162): a listed file whose name matches the telemetry pattern and
whose size is at most `CLEANUP_THRESHOLD_BYTES` is, outside dry-run,
deleted via `hdfs dfs -rm`; the accumulator carries the surviving
partition, the count of successful deletions and the delete attempts. -/
def sweep_file (env : Env) (dry_run : Bool)
    (acc : List RFile × Nat × List RemoteOp) (f : RFile) :
    List RFile × Nat × List RemoteOp :=
  if isTelemetryParquetLine f.path && decide (f.size ≤ CLEANUP_THRESHOLD_BYTES) then
    if dry_run then acc
    else if env.deleteOk f.path then
      (acc.1.filter (fun g => g.path != f.path), acc.2.1 + 1,
        acc.2.2 ++ [RemoteOp.delete f.path])
    else (acc.1, acc.2.1, acc.2.2 ++ [RemoteOp.delete f.path])
  else acc

/-- `cleanup_corrupted_files` (lines 121-171): lists the partition; on
listing failure returns 0 having deleted nothing; otherwise sweeps every
listed tiny telemetry file.  Returns the partition after the sweep, the
number of files actually deleted, and the trace of delete attempts.
Under dry-run the candidates are only logged (line 150). -/
def cleanup_corrupted_files (env : Env) (part : List RFile) (dry_run : Bool) :
    List RFile × Nat × List RemoteOp :=
  if env.listOk then part.foldl (sweep_file env dry_run) (part, 0, [])
  else (part, 0, [])

/-- `get_daily_files` (lines 173-208, subprocess branch): lists the date
partition and keeps the telemetry Parquet files, excluding names containing
`consolidated`; a failed listing yields the empty list. -/
def get_daily_files (env : Env) (part : List RFile) : List String :=
  if env.listOk then
    (part.filter (fun f =>
      isTelemetryParquetLine f.path && !(strContains f.path "consolidated"))).map
      (fun f => f.path)
  else []

/-- Result of `get_file_info` (lines 210-313): the included (not skipped)
files with their sizes, the total of the included sizes in bytes, and
`file_count = len(files)` — the raw input length (line 312). -/
structure FileInfo where
  files : List (String × Nat)
  total_size_bytes : Nat
  file_count : Nat
deriving DecidableEq

/-- `get_file_info` (subprocess branch, lines 239-304): with a non-empty
input list it re-lists the directory once; on listing failure every file is
skipped; otherwise each input file whose size is found and is at least
`MIN_FILE_SIZE_BYTES` is included, smaller or unknown files are skipped. -/
def get_file_info (env : Env) (part : List RFile) (files : List String) : FileInfo :=
  if files.isEmpty then { files := [], total_size_bytes := 0, file_count := 0 }
  else if env.listOk then
    { files := files.filterMap (fun p =>
        match part.find? (fun f => f.path == p) with
        | none => none
        | some f => if f.size < MIN_FILE_SIZE_BYTES then none else some (p, f.size))
      total_size_bytes := (files.filterMap (fun p =>
        match part.find? (fun f => f.path == p) with
        | none => none
        | some f => if f.size < MIN_FILE_SIZE_BYTES then none else some (p, f.size))).foldl
        (fun a x => a + x.2) 0
      file_count := files.length }
  else { files := [], total_size_bytes := 0, file_count := files.length }

/-- `_download_single_file` (lines 315-338): the local destination is the
staging directory joined with the remote file's *basename* (lines 318-319);
a failed `hdfs dfs -get` yields `None`. -/
def download_single_file (env : Env) (hdfs_file local_dir : String) : Option String :=
  if env.getOk hdfs_file then some (local_dir ++ "/" ++ basename hdfs_file) else none

/-- `download_files` (lines 340-366): each file is downloaded independently;
the successes' local paths are collected (order abstracted to submission
order; the claims below do not depend on completion order). -/
def download_files (env : Env) (files : List String) (local_dir : String) : List String :=
  files.filterMap (fun f => download_single_file env f local_dir)

/-- Which remote file's content a staged local path holds after all
downloads ran: the last successful download to that local path wins
(two remote paths with equal basenames overwrite one another). -/
def staging_content (env : Env) (files : List String) (local_dir : String)
    (p : String) : Option String :=
  files.foldl (fun m f =>
    match download_single_file env f local_dir with
    | some l => if p == l then some f else m
    | none => m) none

/-- `consolidate_parquet_files` (lines 368-407): reads every staged file,
sums their row counts, concatenates and writes the output, then re-reads it
and compares the observed row count with the sum (lines 397-400); any read,
concatenation or write exception (e.g. a schema mismatch in
`pa.concat_tables`) is caught and reported as failure (lines 405-407).
`rowsAt` gives the row count `pq.read_table` observes at a local path. -/
def consolidate_parquet_files (env : Env) (rowsAt : String → Nat)
    (local_files : List String) : Bool :=
  if env.schemaOk then
    env.rereadRows ((local_files.map rowsAt).foldl (· + ·) 0)
      == (local_files.map rowsAt).foldl (· + ·) 0
  else false

/-- `upload_consolidated_file` (lines 409-440): one `put` attempt whose
outcome the oracle decides; the attempt itself is always issued. -/
def upload_consolidated_file (env : Env) (hdfs_path : String) : Bool × List RemoteOp :=
  (env.putOk, [RemoteOp.put hdfs_path])

/-- `remove_source_files` (lines 442-475): one `delete` attempt per given
path; failures are logged and skipped; returns whether every deletion
succeeded, together with the attempts. -/
def remove_source_files (env : Env) (files : List String) : Bool × List RemoteOp :=
  ((files.filter env.deleteOk).length == files.length, files.map RemoteOp.delete)

/-- Observable outcome of one `consolidate_date` run: the returned boolean,
the trace of remote put/delete attempts in program order, and
instrumentation recording which lines executed — whether the upload (step 6)
was attempted and succeeded, whether `remove_source_files` (step 7) was
invoked and on which paths, which remote downloads succeeded, the outcome of
`consolidate_parquet_files` if reached, the included file list computed by
`get_file_info` if reached, and whether the staging directory was created
(first touched inside `download_files`, line 344) and removed by the
`finally` block (lines 539-547). -/
structure DateRun where
  result : Bool := false
  ops : List RemoteOp := []
  uploadAttempted : Bool := false
  uploadSucceeded : Bool := false
  reapAttempted : Bool := false
  reapedPaths : List String := []
  downloadedRemotes : List String := []
  mergeOutcome : Option Bool := none
  planFiles : List (String × Nat) := []
  stagingCreated : Bool := false
  stagingRemoved : Bool := false
deriving DecidableEq

/-- `consolidate_date` (lines 477-547), one date's workflow.  Step 0: sweep
corrupted files.  Step 1: list the partition; fewer than
`MIN_FILES_TO_CONSOLIDATE` listed files is a successful no-op (lines
488-490).  Step 2: size info.  Dry-run reports the plan and returns success
(lines 496-501).  Steps 3-4: staging directory and parallel download;
zero successful downloads fail the date (lines 509-511).  Step 5: merge and
verify; failure fails the date before any upload (lines 517-519).  Step 6:
upload; failure fails the date before any source removal (lines 523-525).
Step 7: `remove_source_files(files)` — invoked on the *listed* paths
(line 529); its failure only warns.  The `finally` block removes the
staging directory on every exit path of the `try` (lines 539-547). -/
def consolidate_date (env : Env) (part : List RFile) (date stamp : String)
    (dry_run : Bool) : DateRun :=
  let sweep := cleanup_corrupted_files env part dry_run
  let part1 := sweep.1
  let sweepOps := sweep.2.2
  let files := get_daily_files env part1
  if files.length < MIN_FILES_TO_CONSOLIDATE then
    { result := true, ops := sweepOps }
  else
    let info := get_file_info env part1 files
    if dry_run then
      { result := true, ops := sweepOps, planFiles := info.files }
    else
      let temp_dir := TEMP_LOCAL_DIR ++ "/consolidation_" ++ date ++ "_" ++ stamp
      let downloaded := files.filter env.getOk
      let local_files := download_files env files temp_dir
      if local_files.isEmpty then
        { result := false, ops := sweepOps, planFiles := info.files,
          downloadedRemotes := downloaded,
          stagingCreated := true, stagingRemoved := true }
      else
        let rowsAt : String → Nat := fun l =>
          match staging_content env files temp_dir l with
          | some r =>
            match part1.find? (fun f => f.path == r) with
            | some f => f.rows
            | none => 0
          | none => 0
        if consolidate_parquet_files env rowsAt local_files then
          let hdfs_path := BASE_PATH ++ "/date=" ++ date ++ "/telemetry-" ++ date
            ++ "-consolidated-" ++ stamp ++ ".parquet"
          let up := upload_consolidated_file env hdfs_path
          if up.1 then
            let reap := remove_source_files env files
            { result := true, ops := sweepOps ++ up.2 ++ reap.2,
              uploadAttempted := true, uploadSucceeded := true,
              reapAttempted := true, reapedPaths := files,
              downloadedRemotes := downloaded, mergeOutcome := some true,
              planFiles := info.files,
              stagingCreated := true, stagingRemoved := true }
          else
            { result := false, ops := sweepOps ++ up.2,
              uploadAttempted := true, uploadSucceeded := false,
              downloadedRemotes := downloaded, mergeOutcome := some true,
              planFiles := info.files,
              stagingCreated := true, stagingRemoved := true }
        else
          { result := false, ops := sweepOps,
            downloadedRemotes := downloaded, mergeOutcome := some false,
            planFiles := info.files,
            stagingCreated := true, stagingRemoved := true }

/-- Python `int()` applied to a rational: truncation toward zero. -/
def int_trunc (q : ℚ) : ℤ := if 0 ≤ q then ⌊q⌋ else -⌊-q⌋

/-- `TARGET_FILE_SIZE_MB = 128` (parquet_consolidator.py line 79,
consolidate_remote.py line 22, demo_consolidation.py line 26). -/
def TARGET_FILE_SIZE_MB : ℚ := 128

/-- `consolidate_remote.py` line 171:
`target_files = max(1, int(total_size_mb / TARGET_FILE_SIZE_MB))`. -/
def remote_target_files (totalMB : ℚ) : ℤ :=
  max 1 (int_trunc (totalMB / TARGET_FILE_SIZE_MB))

/-- `consolidate_remote.py` line 172: Python floor division
`(file_count - target_files) * 100 // file_count`. -/
def remote_reduction_percent (fileCount targetFiles : ℤ) : ℤ :=
  Int.fdiv ((fileCount - targetFiles) * 100) fileCount

/-- `demo_consolidation.py` line 20: `current_files = 47`. -/
def demo_current_files : ℤ := 47

/-- `demo_consolidation.py` line 21: `total_size_mb = 1.64`. -/
def demo_total_size_mb : ℚ := 164 / 100

/-- `demo_consolidation.py` lines 42-44: `max(1, int(total/target))` followed
by the redundant `if target_files == 0: target_files = 1`. -/
def demo_target_files : ℤ :=
  let t := max 1 (int_trunc (demo_total_size_mb / TARGET_FILE_SIZE_MB))
  if t = 0 then 1 else t

/-- `demo_consolidation.py` line 46: `current_files - target_files`. -/
def demo_reduction_count : ℤ := demo_current_files - demo_target_files

/-- `demo_consolidation.py` line 47: `(reduction_count * 100) // current_files`. -/
def demo_reduction_percent : ℤ :=
  Int.fdiv (demo_reduction_count * 100) demo_current_files

/-- `main` (lines 569-575): the date list for `--date` and `--days-back`.
`args.days_back` is absent or an integer; Python truthiness sends `None`
and `0` to the single-date branch; otherwise the dates are
`start_date - i` for `i in range(days_back + 1)` (a Python `range` over a
non-positive bound is empty, hence `Int.toNat`). -/
def datesFor (date : Int) (days_back : Option Int) : List Int :=
  match days_back with
  | none => [date]
  | some n => if n ≠ 0 then (List.range (n + 1).toNat).map (fun (i : Nat) => date - (i : Int))
              else [date]

/-- The per-date loop of `main` (lines 577-582): each date is processed in
turn and successes are counted; a date's failure only skips the counter. -/
def main_loop (runDate : Int → Bool) (dates : List Int) : Nat :=
  dates.foldl (fun acc d => if runDate d then acc + 1 else acc) 0

/-- `main`'s return value (line 585):
`0 if success_count == len(dates) else 1`, passed to `sys.exit`. -/
def main_exit (runDate : Int → Bool) (date : Int) (days_back : Option Int) : Nat :=
  if main_loop runDate (datesFor date days_back) = (datesFor date days_back).length
  then 0 else 1

/-- An oracle under which every remote call succeeds and the filesystem is
honest (re-reading an `n`-row file observes `n` rows). -/
def envHonest : Env :=
  { listOk := true, getOk := fun _ => true, deleteOk := fun _ => true,
    putOk := true, schemaOk := true, rereadRows := fun n => n }

/-- A five-file partition of healthy telemetry files. -/
def partA : List RFile :=
  [⟨"/d/telemetry-1.parquet", 2048, 10⟩, ⟨"/d/telemetry-2.parquet", 2048, 10⟩,
   ⟨"/d/telemetry-3.parquet", 2048, 10⟩, ⟨"/d/telemetry-4.parquet", 2048, 10⟩,
   ⟨"/d/telemetry-5.parquet", 2048, 10⟩]

/-- Oracle where only the download of `/d/telemetry-5.parquet` fails. -/
def envGetFails : Env :=
  { envHonest with getOk := fun p => p != "/d/telemetry-5.parquet" }

/-- Four healthy files plus one 500-byte file (below both thresholds). -/
def partB : List RFile :=
  [⟨"/d/telemetry-1.parquet", 2048, 10⟩, ⟨"/d/telemetry-2.parquet", 2048, 10⟩,
   ⟨"/d/telemetry-3.parquet", 2048, 10⟩, ⟨"/d/telemetry-4.parquet", 2048, 10⟩,
   ⟨"/d/telemetry-tiny.parquet", 500, 1⟩]

/-- Oracle where only the sweep's deletion of the tiny file fails. -/
def envRmFails : Env :=
  { envHonest with deleteOk := fun p => p != "/d/telemetry-tiny.parquet" }

/-- Oracle where the upload fails. -/
def envPutFails : Env := { envHonest with putOk := false }

/-- Oracle where reading/concatenating the staged tables raises
(e.g. a schema mismatch). -/
def envSchemaBad : Env := { envHonest with schemaOk := false }

/-- Oracle where re-reading the written output observes zero rows. -/
def envRereadBad : Env := { envHonest with rereadRows := fun _ => 0 }

/-- A three-file partition of healthy telemetry files. -/
def partC : List RFile :=
  [⟨"/d/telemetry-1.parquet", 2048, 10⟩, ⟨"/d/telemetry-2.parquet", 2048, 10⟩,
   ⟨"/d/telemetry-3.parquet", 2048, 10⟩]

/-- A fold whose step fixes every accumulator leaves the initial value. -/
theorem foldl_fixed {α β : Type} (g : β → α → β) (l : List α) (b : β)
    (h : ∀ x ∈ l, ∀ acc, g acc x = acc) : l.foldl g b = b := by
  induction l generalizing b with
  | nil => rfl
  | cons x xs ih =>
    simp only [List.foldl_cons]
    rw [h x (by simp)]
    exact ih b (fun y hy acc => h y (by simp [hy]) acc)

/-- Under dry-run the sweep step never mutates anything (line 149-150). -/
theorem sweep_file_dry (env : Env) (acc : List RFile × Nat × List RemoteOp) (f : RFile) :
    sweep_file env true acc f = acc := by
  unfold sweep_file
  split <;> rfl

/-- Under dry-run the whole sweep deletes nothing and issues no remote op. -/
theorem cleanup_dry (env : Env) (part : List RFile) :
    cleanup_corrupted_files env part true = (part, 0, []) := by
  unfold cleanup_corrupted_files
  split
  · exact foldl_fixed _ _ _ (fun x _ acc => sweep_file_dry env acc x)
  · rfl

/-- A partition whose files all exceed the cleanup threshold is untouched by
the sweep and no delete is attempted. -/
theorem cleanup_no_candidates (env : Env) (part : List RFile) (dry_run : Bool)
    (h : ∀ f ∈ part, CLEANUP_THRESHOLD_BYTES < f.size) :
    cleanup_corrupted_files env part dry_run = (part, 0, []) := by
  unfold cleanup_corrupted_files
  split
  · refine foldl_fixed _ _ _ (fun x hx acc => ?_)
    have hs : ¬ (x.size ≤ CLEANUP_THRESHOLD_BYTES) := by
      have := h x hx
      omega
    simp [sweep_file, hs]
  · rfl

/-- The success-counting fold of `main` counts exactly the dates on which
the per-date run returned `True`. -/
theorem main_loop_foldl {α : Type} (f : α → Bool) (l : List α) (k : Nat) :
    l.foldl (fun acc d => if f d then acc + 1 else acc) k = k + (l.filter f).length := by
  induction l generalizing k with
  | nil => simp
  | cons x xs ih =>
    by_cases h : f x = true
    · simp [List.filter_cons, h, ih]
      omega
    · simp [List.filter_cons, h, ih]

/-- `main_loop` as a filter length. -/
theorem main_loop_eq (f : Int → Bool) (l : List Int) :
    main_loop f l = (l.filter f).length := by
  unfold main_loop
  simpa using main_loop_foldl f l 0

/-- A filter keeps the whole list exactly when every element passes. -/
theorem filter_length_eq_iff {α : Type} (f : α → Bool) (l : List α) :
    (l.filter f).length = l.length ↔ ∀ x ∈ l, f x = true := by
  induction l with
  | nil => simp
  | cons x xs ih =>
    by_cases h : f x = true
    · simp [List.filter_cons, h, ih]
    · have hle := List.length_filter_le f xs
      have hf : f x = false := by simpa using h
      rw [List.filter_cons, hf]
      simp only [Bool.false_eq_true, if_false, List.length_cons]
      constructor
      · intro heq
        omega
      · intro hall
        exact absurd (hall x (by simp)) h

/-- C1: on a concrete run in which the download of `/d/telemetry-5.parquet`
fails while the other four downloads, the merge and the upload succeed,
`consolidate_date` nevertheless passes the full listing to
`remove_source_files` (line 529) and the never-downloaded, never-merged
file receives a remote delete: the Source Reaper does *not* restrict
deletion to successfully downloaded files. -/
theorem C1_reaper_deletes_file_whose_download_failed :
    (consolidate_date envGetFails partA "d" "t" false).result = true
    ∧ "/d/telemetry-5.parquet" ∈
        (consolidate_date envGetFails partA "d" "t" false).reapedPaths
    ∧ "/d/telemetry-5.parquet" ∉
        (consolidate_date envGetFails partA "d" "t" false).downloadedRemotes
    ∧ RemoteOp.delete "/d/telemetry-5.parquet" ∈
        (consolidate_date envGetFails partA "d" "t" false).ops := by
  decide

/-- C2: publish strictly before any source delete: `remove_source_files` is
reached only after `upload_consolidated_file` returned success (lines
521-531), and when the upload fails the date's run fails with no source
deletion attempted. -/
theorem C2_publish_strictly_before_delete (env : Env) (part : List RFile)
    (date stamp : String) (dry_run : Bool) (r : DateRun)
    (hr : r = consolidate_date env part date stamp dry_run) :
    (r.reapAttempted = true → r.uploadSucceeded = true)
    ∧ (env.putOk = false → r.reapAttempted = false ∧ r.reapedPaths = [] ∧
        (r.uploadAttempted = true → r.result = false)) := by
  subst hr
  simp only [consolidate_date]
  split
  · simp
  · split
    · simp
    · split
      · simp
      · split
        · split
          · rename_i hup
            simp only [upload_consolidated_file] at hup
            simp [hup]
          · simp
        · simp

/-- C2 witness: with a failing upload on a five-file partition the run
fails, no source file is passed to the Reaper, and no reap is attempted. -/
theorem C2_witness :
    (consolidate_date envPutFails partA "d" "t" false).reapAttempted = false
    ∧ (consolidate_date envPutFails partA "d" "t" false).reapedPaths = []
    ∧ (consolidate_date envPutFails partA "d" "t" false).result = false := by
  have h := (C2_publish_strictly_before_delete envPutFails partA "d" "t" false _ rfl).2
    (by decide)
  exact ⟨h.1, h.2.1, h.2.2 (by decide)⟩

/-- C3: the merge verification gate: a successful
`consolidate_parquet_files` implies the re-read row count equalled the sum
of the staged inputs' row counts (lines 397-400), a mismatch forces
failure, and a failed merge fails the date before any upload or source
deletion (lines 517-519). -/
theorem C3_merge_verification_gate (env : Env) (rowsAt : String → Nat)
    (locals : List String) (env2 : Env) (part : List RFile) (date stamp : String)
    (dry_run : Bool) (r : DateRun)
    (hr : r = consolidate_date env2 part date stamp dry_run) :
    (env.rereadRows ((locals.map rowsAt).foldl (· + ·) 0)
        ≠ (locals.map rowsAt).foldl (· + ·) 0 →
      consolidate_parquet_files env rowsAt locals = false)
    ∧ (consolidate_parquet_files env rowsAt locals = true →
      env.rereadRows ((locals.map rowsAt).foldl (· + ·) 0)
        = (locals.map rowsAt).foldl (· + ·) 0)
    ∧ (r.mergeOutcome = some false → r.result = false ∧ r.uploadAttempted = false ∧
        r.reapAttempted = false ∧ r.reapedPaths = []) := by
  subst hr
  refine ⟨?_, ?_, ?_⟩
  · intro h
    unfold consolidate_parquet_files
    split
    · simpa using h
    · rfl
  · intro h
    unfold consolidate_parquet_files at h
    split at h
    · simpa using h
    · exact absurd h (by simp)
  · simp only [consolidate_date]
    split
    · simp
    · split
      · simp
      · split
        · simp
        · split
          · split
            · simp
            · simp
          · simp

/-- C3 witness: when re-reading the output observes zero rows against three
staged rows, the merge reports failure; on a full run with the same fault
the date fails. -/
theorem C3_witness :
    consolidate_parquet_files envRereadBad (fun _ => 3) ["l"] = false
    ∧ (consolidate_date envRereadBad partA "d" "t" false).result = false := by
  refine ⟨(C3_merge_verification_gate envRereadBad (fun _ => 3) ["l"]
      envRereadBad partA "d" "t" false _ rfl).1 (by decide), ?_⟩
  exact ((C3_merge_verification_gate envRereadBad (fun _ => 3) ["l"]
      envRereadBad partA "d" "t" false _ rfl).2.2 (by decide)).1

/-- C4: dry-run purity: with `dry_run = True` a date's run issues zero
remote put or delete attempts (the sweep only logs candidates, line 150,
and the workflow returns after reporting the plan, lines 496-501), returns
success, and never reaches upload, reap or staging. -/
theorem C4_dry_run_purity (env : Env) (part : List RFile) (date stamp : String) :
    (consolidate_date env part date stamp true).ops = []
    ∧ (consolidate_date env part date stamp true).result = true
    ∧ (consolidate_date env part date stamp true).uploadAttempted = false
    ∧ (consolidate_date env part date stamp true).reapAttempted = false
    ∧ (consolidate_date env part date stamp true).stagingCreated = false := by
  simp only [consolidate_date, cleanup_dry]
  split <;> simp

/-- C5 counterexample: four healthy files plus one 500-byte file whose
sweep deletion fails.  The post-sweep, size-filtered eligible set has 4
entries, below `MIN_FILES_TO_CONSOLIDATE`, yet the run does not stop: it
uploads a consolidated file (one remote put) and reaps the sources,
because the gate at line 488 tests the raw listed count (5), not the
filtered count. -/
theorem C5_claim_counterexample :
    (consolidate_date envRmFails partB "d" "t" false).planFiles.length = 4
    ∧ (consolidate_date envRmFails partB "d" "t" false).planFiles.length
        < MIN_FILES_TO_CONSOLIDATE
    ∧ putCount (consolidate_date envRmFails partB "d" "t" false).ops = 1
    ∧ (consolidate_date envRmFails partB "d" "t" false).reapAttempted = true := by
  decide

/-- C5 amended: eligibility is gated on the raw listed file count before
size filtering (line 488): for a partition with no sweep candidates and a
listed count below `MIN_FILES_TO_CONSOLIDATE`, the run stops with success
and performs no remote put or delete. -/
theorem C5_eligibility_gating_amended (env : Env) (part : List RFile)
    (date stamp : String) (dry_run : Bool)
    (hbig : ∀ f ∈ part, CLEANUP_THRESHOLD_BYTES < f.size)
    (hlt : (get_daily_files env part).length < MIN_FILES_TO_CONSOLIDATE)
    (r : DateRun) (hr : r = consolidate_date env part date stamp dry_run) :
    r.result = true ∧ r.ops = [] ∧ r.uploadAttempted = false
    ∧ r.reapAttempted = false ∧ r.reapedPaths = [] := by
  subst hr
  simp only [consolidate_date, cleanup_no_candidates env part dry_run hbig]
  rw [if_pos hlt]
  simp

/-- C5 witness: a three-file healthy partition is a successful no-op with
an empty remote trace. -/
theorem C5_witness :
    (consolidate_date envHonest partC "d" "t" false).result = true
    ∧ (consolidate_date envHonest partC "d" "t" false).ops = [] := by
  have h := C5_eligibility_gating_amended envHonest partC "d" "t" false
    (by decide) (by decide) _ rfl
  exact ⟨h.1, h.2.1⟩

/-- C6 counterexample: `MIN_FILE_SIZE_BYTES` does not default larger than
`CLEANUP_THRESHOLD_BYTES`; the two constants are equal (both 1024, lines 37
and 81). -/
theorem C6_claim_counterexample :
    MIN_FILE_SIZE_BYTES = CLEANUP_THRESHOLD_BYTES := by
  decide

/-- C6 amended: the two thresholds are distinct constants but default to
the same value 1024, so no file size lies strictly between them: every
size is at most the cleanup threshold or at least the planning minimum
(the claimed between-the-thresholds behaviour is vacuous). -/
theorem C6_thresholds_amended :
    CLEANUP_THRESHOLD_BYTES = 1024 ∧ MIN_FILE_SIZE_BYTES = 1024
    ∧ ∀ s : Nat, s ≤ CLEANUP_THRESHOLD_BYTES ∨ MIN_FILE_SIZE_BYTES ≤ s := by
  refine ⟨rfl, rfl, fun s => ?_⟩
  unfold CLEANUP_THRESHOLD_BYTES MIN_FILE_SIZE_BYTES
  omega

/-- C7: for every positive total size the planned output file count is
`max(1, floor(totalMB / TARGET_FILE_SIZE_MB))` (Python `int()` truncates
toward zero, which on positives is the floor); in the 47-file, 1.64 MB
scenario the plan is eligible (47 ≥ 5), the target file count is 1 and the
computed reduction is `(47-1)*100 // 47 = 97` percent, in both
`consolidate_remote.py` and `demo_consolidation.py`. -/
theorem C7_target_file_count_formula (q : ℚ) (hq : 0 < q) :
    remote_target_files q = max 1 ⌊q / TARGET_FILE_SIZE_MB⌋
    ∧ demo_target_files = 1
    ∧ demo_reduction_percent = 97
    ∧ remote_target_files demo_total_size_mb = 1
    ∧ remote_reduction_percent 47 1 = 97
    ∧ MIN_FILES_TO_CONSOLIDATE ≤ 47 := by
  have hd : demo_target_files = 1 := by
    unfold demo_target_files int_trunc demo_total_size_mb TARGET_FILE_SIZE_MB
    norm_num
  refine ⟨?_, hd, ?_, ?_, by decide, by decide⟩
  · unfold remote_target_files int_trunc
    rw [if_pos (by unfold TARGET_FILE_SIZE_MB; positivity)]
  · unfold demo_reduction_percent demo_reduction_count demo_current_files
    rw [hd]
    decide
  · unfold remote_target_files int_trunc demo_total_size_mb TARGET_FILE_SIZE_MB
    norm_num

/-- C7 witness: the formula applied at the concrete 1.64 MB total. -/
theorem C7_witness :
    (0:ℚ) < 164 / 100
    ∧ remote_target_files (164 / 100)
        = max 1 ⌊(164 / 100 : ℚ) / TARGET_FILE_SIZE_MB⌋ :=
  ⟨by norm_num, (C7_target_file_count_formula (164 / 100) (by norm_num)).1⟩

/-- C8: staging cleanup: the staging directory is removed on every exit
path on which it was created (the `finally` block, lines 539-547), and in
particular a merge failure (e.g. a schema mismatch) fails the date with no
upload attempted while the staging directory is still removed. -/
theorem C8_staging_cleanup (env : Env) (part : List RFile)
    (date stamp : String) (dry_run : Bool) (r : DateRun)
    (hr : r = consolidate_date env part date stamp dry_run) :
    (r.stagingCreated = true → r.stagingRemoved = true)
    ∧ (r.mergeOutcome = some false → r.result = false ∧ r.uploadAttempted = false
        ∧ r.reapAttempted = false ∧ r.stagingRemoved = true) := by
  subst hr
  simp only [consolidate_date]
  split
  · simp
  · split
    · simp
    · split
      · simp
      · split
        · split
          · simp
          · simp
        · simp

/-- C8 witness: a schema mismatch on a five-file partition fails the date,
attempts no upload, and still removes the staging directory. -/
theorem C8_witness :
    (consolidate_date envSchemaBad partA "d" "t" false).result = false
    ∧ (consolidate_date envSchemaBad partA "d" "t" false).uploadAttempted = false
    ∧ (consolidate_date envSchemaBad partA "d" "t" false).stagingRemoved = true := by
  have h := (C8_staging_cleanup envSchemaBad partA "d" "t" false _ rfl).2 (by decide)
  exact ⟨h.1, h.2.1, h.2.2.2⟩

/-- C9: batch semantics: `--days-back N` yields the `N+1` consecutive dates
`date, date-1, ..., date-N` (lines 570-575); every requested date is
processed by its own `consolidate_date` run and the successes are counted
regardless of other dates' outcomes; the exit code is 0 exactly when every
requested date's run returned success (line 585). -/
theorem C9_batch_semantics (envOf : Int → Env) (partOf : Int → List RFile)
    (dateStr : Int → String) (stamp : String) (dry_run : Bool)
    (date n : Int) (hn : 0 ≤ n) :
    datesFor date (some n) = (List.range (n + 1).toNat).map (fun (i : Nat) => date - (i : Int))
    ∧ (datesFor date (some n)).length = n.toNat + 1
    ∧ main_loop (fun d =>
          (consolidate_date (envOf d) (partOf d) (dateStr d) stamp dry_run).result)
        (datesFor date (some n))
      = ((datesFor date (some n)).filter (fun d =>
          (consolidate_date (envOf d) (partOf d) (dateStr d) stamp dry_run).result)).length
    ∧ (main_exit (fun d =>
          (consolidate_date (envOf d) (partOf d) (dateStr d) stamp dry_run).result)
        date (some n) = 0
      ↔ ∀ d ∈ datesFor date (some n),
          (consolidate_date (envOf d) (partOf d) (dateStr d) stamp dry_run).result
            = true) := by
  have hdf : datesFor date (some n)
      = (List.range (n + 1).toNat).map (fun (i : Nat) => date - (i : Int)) := by
    unfold datesFor
    by_cases h : n = 0
    · subst h
      have h1 : List.range 1 = [0] := rfl
      norm_num [h1]
    · simp [h]
  refine ⟨hdf, ?_, main_loop_eq _ _, ?_⟩
  · rw [hdf]
    simp only [List.length_map, List.length_range]
    omega
  · unfold main_exit
    rw [main_loop_eq]
    have hiff := filter_length_eq_iff (fun d =>
      (consolidate_date (envOf d) (partOf d) (dateStr d) stamp dry_run).result)
      (datesFor date (some n))
    by_cases hc : ((datesFor date (some n)).filter (fun d =>
        (consolidate_date (envOf d) (partOf d) (dateStr d) stamp dry_run).result)).length
        = (datesFor date (some n)).length
    · rw [if_pos hc]
      exact ⟨fun _ => hiff.mp hc, fun _ => rfl⟩
    · rw [if_neg hc]
      exact ⟨fun h10 => absurd h10 (by decide), fun hall => absurd (hiff.mpr hall) hc⟩

/-- C9 witness: three dates for `--days-back 2`. -/
theorem C9_witness :
    (datesFor 100 (some 2)).length = (2:ℤ).toNat + 1 :=
  (C9_batch_semantics (fun _ => envHonest) (fun _ => []) (fun _ => "d")
    "t" false 100 2 (by decide)).2.1

/-- C10: staging paths depend only on the basename: two distinct remote
paths with equal basenames download to the same local path (lines 318-319),
`download_files` then returns that local path twice, and a merge over the
returned list counts the single surviving staged file once per occurrence. -/
theorem C10_basename_collision (env : Env) (dir p1 p2 : String)
    (rowsAt : String → Nat) (_hd : p1 ≠ p2) (hb : basename p1 = basename p2)
    (h1 : env.getOk p1 = true) (h2 : env.getOk p2 = true) :
    download_single_file env p1 dir = download_single_file env p2 dir
    ∧ download_files env [p1, p2] dir
        = [dir ++ "/" ++ basename p1, dir ++ "/" ++ basename p1]
    ∧ ((download_files env [p1, p2] dir).map rowsAt).foldl (· + ·) 0
        = 2 * rowsAt (dir ++ "/" ++ basename p1) := by
  have hl : download_files env [p1, p2] dir
      = [dir ++ "/" ++ basename p1, dir ++ "/" ++ basename p1] := by
    simp [download_files, download_single_file, h1, h2, ← hb]
  refine ⟨?_, hl, ?_⟩
  · simp [download_single_file, h1, h2, hb]
  · rw [hl]
    simp only [List.map_cons, List.map_nil, List.foldl_cons, List.foldl_nil]
    omega

/-- C10 witness: two remote paths in different directories sharing the
basename `telemetry-x.parquet` collide on one staging path. -/
theorem C10_witness :
    download_files envHonest
        ["/a/telemetry-x.parquet", "/b/telemetry-x.parquet"] "/tmp/s"
      = ["/tmp/s" ++ "/" ++ basename "/a/telemetry-x.parquet",
         "/tmp/s" ++ "/" ++ basename "/a/telemetry-x.parquet"] :=
  (C10_basename_collision envHonest "/tmp/s" "/a/telemetry-x.parquet"
    "/b/telemetry-x.parquet" (fun _ => 3) (by decide) (by decide)
    (by decide) (by decide)).2.1
